import Mathlib

/-!
Verification development for the translation-matching pipeline.

The pipeline matches translated PDF documents (extracted as ordered text
blocks) against reference XML documents, first at document level
(`DocumentMatcher`, `PipelineManager.runDocumentMatching`), then at
paragraph level (`ParagraphMatcher`, `PipelineManager.runParagraphMatching`),
persisting its state through an ad-hoc JSON record store
(`database/index.js`).

Modelling conventions:
- JavaScript numbers are modelled exactly, as `ℚ` where the source only
  performs field operations and comparisons, and as `ℝ` where `Math.sqrt`
  appears (the cosine-similarity magnitude).
- JavaScript strings are modelled as Lean `String`; `.length`, `substring`
  and character classes are modelled over Unicode scalar values (all inputs
  appearing in the theorems below are ASCII, where the two notions agree).
- The record store keeps JS objects; these are modelled as association
  lists of field name to `JsVal`, so that absent fields (JS `undefined`)
  are representable.
-/

/-! ## JavaScript string primitives used by the pipeline -/

/-- Whitespace class of the JavaScript regexes `\s` used in the source
(space, tab, newline, carriage return, form feed, vertical tab). -/
def jsIsSpace (c : Char) : Bool :=
  c = ' ' || c = '\t' || c = '\n' || c = '\r' || c = '\x0c' || c = '\x0b'

/-- Word class of the JavaScript regex `\w`: ASCII letters, digits and
underscore. -/
def jsIsWordChar (c : Char) : Bool :=
  c.isAlphanum || c = '_'

/-- Characters of the sentence-separator class `[.!?]` in
`DocumentMatcher.structuralSimilarity`. -/
def jsIsSentChar (c : Char) : Bool :=
  c = '.' || c = '!' || c = '?'

/-- Model of `String.prototype.trim` (drop leading and trailing
whitespace). -/
def jsTrim (s : String) : String :=
  ⟨((s.toList.dropWhile jsIsSpace).reverse.dropWhile jsIsSpace).reverse⟩

/-- Auxiliary for `.replace(/\s+/g, ' ')`: collapse every whitespace run to
a single space.  The boolean records whether the previous character was
part of a whitespace run. -/
def jsCollapseWsAux : Bool → List Char → List Char
  | _, [] => []
  | prevWs, c :: rest =>
    if jsIsSpace c then
      if prevWs then jsCollapseWsAux true rest
      else ' ' :: jsCollapseWsAux true rest
    else c :: jsCollapseWsAux false rest

/-- Model of `.replace(/\s+/g, ' ')`. -/
def jsCollapseWs (s : String) : String :=
  ⟨jsCollapseWsAux false s.toList⟩

/-- Model of `String.prototype.toLowerCase` (ASCII-accurate). -/
def jsToLower (s : String) : String :=
  ⟨s.toList.map Char.toLower⟩

/-- Auxiliary for `String.prototype.split(' ')`; `cur` accumulates the
current piece in reverse. -/
def jsSplitOnSpaceGo : List Char → List Char → List String
  | [], cur => [⟨cur.reverse⟩]
  | c :: rest, cur =>
    if c = ' ' then ⟨cur.reverse⟩ :: jsSplitOnSpaceGo rest []
    else jsSplitOnSpaceGo rest (c :: cur)

/-- Model of `String.prototype.split(' ')`: split on every single space
character, keeping empty pieces (JavaScript yields `[""]` on the empty
string). -/
def jsSplitOnSpace (s : String) : List String :=
  jsSplitOnSpaceGo s.toList []

/-! ## Text normalization shared by `DocumentMatcher.normalizeText` and
`ParagraphMatcher.normalizeText` (the two methods have identical bodies:
lowercase, replace `[^\w\s]` by a space, collapse whitespace, trim). -/

/-- Model of `normalizeText` from `document-matcher.js` lines 139-147 and
`paragraph-matcher.js` lines 46-54.  On strings the JS guard `if (!text)`
fires exactly on the empty string, which the pipeline below maps to itself
anyway, so it is not a separate branch here. -/
def normalizeText (text : String) : String :=
  jsTrim (jsCollapseWs
    ⟨(jsToLower text).toList.map
      (fun c => if jsIsWordChar c || jsIsSpace c then c else ' ')⟩)

/-! ## DocumentMatcher (src/server/pipeline/document-matcher.js) -/

namespace DocumentMatcher

/-- Tokens used by `jaccardSimilarity` and `cosineSimilarity`:
`text.split(' ').filter(t => t.length > 2)`. -/
def splitTokens (text : String) : List String :=
  (jsSplitOnSpace text).filter (fun t => 2 < t.length)

/-- Model of `jaccardSimilarity` (document-matcher.js lines 149-160).
`new Set(...)` is modelled by `List.dedup`; only the sizes of the
intersection and union are used, so iteration order is irrelevant. -/
def jaccardSimilarity (text1 text2 : String) : ℚ :=
  let tokens1 := (splitTokens text1).dedup
  let tokens2 := (splitTokens text2).dedup
  if tokens1.length = 0 ∧ tokens2.length = 0 then 1
  else if tokens1.length = 0 ∨ tokens2.length = 0 then 0
  else
    let inter := (tokens1.filter (fun t => t ∈ tokens2)).length
    let uni := ((tokens1 ++ tokens2).dedup).length
    (inter : ℚ) / (uni : ℚ)

/-- Squared magnitude of the frequency vector of `tokens` over `vocab`,
as built by `createVector` (document-matcher.js lines 186-201). -/
def vectorNormSq (tokens vocab : List String) : ℕ :=
  (vocab.map (fun w => tokens.count w * tokens.count w)).sum

/-- Dot product of the two frequency vectors over `vocab`. -/
def vectorDot (tokens1 tokens2 vocab : List String) : ℕ :=
  (vocab.map (fun w => tokens1.count w * tokens2.count w)).sum

/-- Model of `cosineSimilarity` (document-matcher.js lines 162-184).  The
vocabulary `new Set([...tokens1, ...tokens2])` is `(tokens1 ++
tokens2).dedup`; the guard `magnitude === 0` is equivalent to the squared
magnitude being `0`, which keeps the branch decidable. -/
noncomputable def cosineSimilarity (text1 text2 : String) : ℝ :=
  let tokens1 := splitTokens text1
  let tokens2 := splitTokens text2
  if tokens1.length = 0 ∨ tokens2.length = 0 then 0
  else
    let vocab := (tokens1 ++ tokens2).dedup
    let dotProduct := vectorDot tokens1 tokens2 vocab
    let magSq1 := vectorNormSq tokens1 vocab
    let magSq2 := vectorNormSq tokens2 vocab
    if magSq1 = 0 ∨ magSq2 = 0 then 0
    else (dotProduct : ℝ) / (Real.sqrt (magSq1 : ℝ) * Real.sqrt (magSq2 : ℝ))

/-- Model of `lengthSimilarity` (document-matcher.js lines 203-214),
applied to the raw (un-normalized) texts. -/
def lengthSimilarity (text1 text2 : String) : ℚ :=
  let len1 := text1.length
  let len2 := text2.length
  if len1 = 0 ∧ len2 = 0 then 1
  else if len1 = 0 ∨ len2 = 0 then 0
  else (min len1 len2 : ℚ) / (max len1 len2 : ℚ)

/-- Split on the regex `/\n\s*\n/` as `String.prototype.split` does.  A
match starts at the first newline of a contiguous whitespace run that
contains a second newline and greedily extends to the last newline of
that run, so the run chars before its first newline stay with the left
piece and the chars after its last newline start the right piece.  The
recursion buffers the pending whitespace run in `wsRun` and the current
piece in `cur` (both in source order). -/
def paraSplitGo : List Char → List Char → List Char → List (List Char)
  | [], wsRun, cur =>
    if 2 ≤ wsRun.countP (fun d => d = '\n') then
      [cur ++ wsRun.takeWhile (fun d => d ≠ '\n'),
       (wsRun.reverse.takeWhile (fun d => d ≠ '\n')).reverse]
    else [cur ++ wsRun]
  | c :: rest, wsRun, cur =>
    if jsIsSpace c then paraSplitGo rest (wsRun ++ [c]) cur
    else if 2 ≤ wsRun.countP (fun d => d = '\n') then
      (cur ++ wsRun.takeWhile (fun d => d ≠ '\n')) ::
        paraSplitGo rest [] ((wsRun.reverse.takeWhile (fun d => d ≠ '\n')).reverse ++ [c])
    else paraSplitGo rest [] (cur ++ wsRun ++ [c])

/-- Model of `text.split(/\n\s*\n/)`. -/
def paraSplit (s : String) : List String :=
  (paraSplitGo s.toList [] []).map fun l => ⟨l⟩

/-- Split on the regex `/[.!?]+/`: every maximal run of sentence
terminators separates two pieces.  The boolean records whether the
previous character belonged to a terminator run. -/
def sentSplitGo : Bool → List Char → List Char → List (List Char)
  | _, [], cur => [cur.reverse]
  | inSep, c :: rest, cur =>
    if jsIsSentChar c then
      if inSep then sentSplitGo true rest cur
      else cur.reverse :: sentSplitGo true rest []
    else sentSplitGo false rest (c :: cur)

/-- Model of `text.split(/[.!?]+/)`. -/
def sentSplit (s : String) : List String :=
  (sentSplitGo false s.toList []).map fun l => ⟨l⟩

/-- Non-blank paragraph pieces of a text:
`text.split(/\n\s*\n/).filter(p => p.trim().length > 0)`. -/
def paragraphsOf (text : String) : List String :=
  (paraSplit text).filter (fun p => 0 < (jsTrim p).length)

/-- Non-blank sentence pieces of a text:
`text.split(/[.!?]+/).filter(s => s.trim().length > 0)`. -/
def sentencesOf (text : String) : List String :=
  (sentSplit text).filter (fun s => 0 < (jsTrim s).length)

/-- Model of `structuralSimilarity` (document-matcher.js lines 121-137),
applied to the raw texts: compare the counts of non-blank paragraphs and
of non-blank sentences. -/
def structuralSimilarity (text1 text2 : String) : ℚ :=
  let paragraphs1 := paragraphsOf text1
  let paragraphs2 := paragraphsOf text2
  let sentences1 := sentencesOf text1
  let sentences2 := sentencesOf text2
  let paragraphRatio : ℚ :=
    if 0 < paragraphs1.length ∧ 0 < paragraphs2.length then
      (min paragraphs1.length paragraphs2.length : ℚ) /
        (max paragraphs1.length paragraphs2.length : ℚ)
    else 0
  let sentenceRatio : ℚ :=
    if 0 < sentences1.length ∧ 0 < sentences2.length then
      (min sentences1.length sentences2.length : ℚ) /
        (max sentences1.length sentences2.length : ℚ)
    else 0
  (paragraphRatio + sentenceRatio) / 2

/-- Model of `calculateSimilarity` (document-matcher.js lines 31-57):
normalize both texts, combine the four signals with weight 0.25 each, and
clamp the result into `[0,1]` via `Math.min(1, Math.max(0, _))`.  The
`try/catch` wrapping cannot fire in this pure model. -/
noncomputable def calculateSimilarity (text1 text2 : String) : ℝ :=
  let normalized1 := normalizeText text1
  let normalized2 := normalizeText text2
  let combinedScore : ℝ :=
    (jaccardSimilarity normalized1 normalized2 : ℝ) * (1/4) +
    cosineSimilarity normalized1 normalized2 * (1/4) +
    (lengthSimilarity text1 text2 : ℝ) * (1/4) +
    (structuralSimilarity text1 text2 : ℝ) * (1/4)
  min 1 (max 0 combinedScore)

/-- Model of `extractTitle` (document-matcher.js lines 111-119): strip a
trailing `.pdf`/`.xml` extension (case-insensitively, anchored at the
end), replace `-` and `_` by spaces, lowercase, collapse whitespace,
trim. -/
def extractTitle (filename : String) : String :=
  let lowered4 := jsToLower ⟨filename.toList.drop (filename.length - 4)⟩
  let stripped :=
    if 4 ≤ filename.length ∧ (lowered4 = ".pdf" ∨ lowered4 = ".xml") then
      ⟨filename.toList.take (filename.length - 4)⟩
    else filename
  jsTrim (jsCollapseWs (jsToLower
    ⟨stripped.toList.map (fun c => if c = '-' ∨ c = '_' then ' ' else c)⟩))

/-- The hand-curated cross-language title equivalence table of
`calculateDocumentMatchByTitle` (document-matcher.js lines 65-92). -/
def titleMatches : List (String × List String) :=
  [("oraciones", ["prayers", "meditations"]),
   ("meditaciones", ["prayers", "meditations"]),
   ("prayers", ["oraciones", "meditaciones"]),
   ("meditations", ["oraciones", "meditaciones"]),
   ("tablas", ["tablets"]),
   ("tablets", ["tablas"]),
   ("palabras", ["words"]),
   ("words", ["palabras"]),
   ("ocultas", ["hidden"]),
   ("hidden", ["ocultas"]),
   ("valle", ["valley"]),
   ("valles", ["valley", "valleys"]),
   ("valley", ["valle", "valles"]),
   ("valleys", ["valles"]),
   ("escritos", ["writings", "gleanings"]),
   ("writings", ["escritos"]),
   ("gleanings", ["escritos"]),
   ("llamado", ["call", "summons"]),
   ("call", ["llamado"]),
   ("summons", ["llamado"]),
   ("naciones", ["nations"]),
   ("nations", ["naciones"]),
   ("bahaullah", ["bahaullah"]),
   ("abdul", ["abdul"]),
   ("baha", ["baha"]),
   ("bab", ["bab"])]

/-- The word-match count of the loop in `calculateDocumentMatchByTitle`
(document-matcher.js lines 98-104): a PDF title word scores when it occurs
in the XML title directly or one of its table translations does. -/
def titleMatchScore (pdfWords xmlWords : List String) : ℕ :=
  pdfWords.countP (fun pdfWord =>
    let ms := ((titleMatches.lookup pdfWord).getD [])
    pdfWord ∈ xmlWords || ms.any (fun m => m ∈ xmlWords))

/-- Model of `calculateDocumentMatchByTitle` (document-matcher.js lines
59-109): the word-match count normalized by the average word count of the
two titles. -/
def calculateDocumentMatchByTitle (pdfFilename xmlFilename : String) : ℚ :=
  let pdfWords := jsSplitOnSpace (extractTitle pdfFilename)
  let xmlWords := jsSplitOnSpace (extractTitle xmlFilename)
  let avgWordCount : ℚ := ((pdfWords.length : ℚ) + (xmlWords.length : ℚ)) / 2
  if 0 < avgWordCount then (titleMatchScore pdfWords xmlWords : ℚ) / avgWordCount
  else 0

end DocumentMatcher

/-! ## ParagraphMatcher (paragraph-matcher.js).  All of its signals are
rational-valued (no square roots), so this model is fully computable. -/

namespace ParagraphMatcher

/-- Words used by the phrase/order/semantic signals:
`text.split(' ').filter(w => w.length > 2)`. -/
def contentWords (text : String) : List String :=
  (jsSplitOnSpace text).filter (fun w => 2 < w.length)

/-- Model of `getPhrases` (paragraph-matcher.js lines 83-89): all
contiguous runs of `len` words, joined by single spaces. -/
def getPhrases (words : List String) (len : ℕ) : List String :=
  if words.length < len then []
  else (List.range (words.length - len + 1)).map
    (fun i => " ".intercalate ((words.drop i).take len))

/-- Model of `exactPhraseMatching` (paragraph-matcher.js lines 56-81):
fraction of the 2-word and 3-word phrases of the first text that occur
among the corresponding phrases of the second. -/
def exactPhraseMatching (text1 text2 : String) : ℚ :=
  let words1 := contentWords text1
  let words2 := contentWords text2
  if words1.length = 0 ∨ words2.length = 0 then 0
  else
    let matches2 := (getPhrases words1 2).countP (fun p => p ∈ getPhrases words2 2)
    let matches3 := (getPhrases words1 3).countP (fun p => p ∈ getPhrases words2 3)
    let totalPhrases := (getPhrases words1 2).length + (getPhrases words1 3).length
    if 0 < totalPhrases then ((matches2 + matches3 : ℕ) : ℚ) / (totalPhrases : ℚ)
    else 0

/-- Model of `lcsLength` (paragraph-matcher.js lines 101-117): the
dynamic-programming table computes the classical longest-common-
subsequence length, stated here by its defining recurrence. -/
def lcsLength : List String → List String → ℕ
  | [], _ => 0
  | _ :: _, [] => 0
  | a :: as, b :: bs =>
    if a = b then lcsLength as bs + 1
    else max (lcsLength (a :: as) bs) (lcsLength as (b :: bs))
  termination_by l1 l2 => l1.length + l2.length
  decreasing_by all_goals (simp <;> omega)

/-- Model of `longestCommonSubsequence` (paragraph-matcher.js lines
91-99): LCS of the unfiltered word sequences over the longer length. -/
def longestCommonSubsequence (text1 text2 : String) : ℚ :=
  let words1 := jsSplitOnSpace text1
  let words2 := jsSplitOnSpace text2
  let maxLength := max words1.length words2.length
  if 0 < maxLength then (lcsLength words1 words2 : ℚ) / (maxLength : ℚ) else 0

/-- Model of `wordOrderSimilarity` (paragraph-matcher.js lines 119-148):
for consecutive pairs of common words, the fraction whose first-occurrence
order agrees between the two texts. -/
def wordOrderSimilarity (text1 text2 : String) : ℚ :=
  let words1 := contentWords text1
  let words2 := contentWords text2
  if words1.length = 0 ∨ words2.length = 0 then 0
  else
    let commonWords := words1.filter (fun w => w ∈ words2)
    if commonWords.length = 0 then 0
    else
      let pairs := commonWords.zip commonWords.tail
      let orderScore := pairs.countP (fun pq =>
        decide (words1.indexOf pq.1 < words1.indexOf pq.2) =
          decide (words2.indexOf pq.1 < words2.indexOf pq.2))
      let maxPairs := commonWords.length - 1
      if 0 < maxPairs then (orderScore : ℚ) / (maxPairs : ℚ) else 0

/-- Word weight of `calculateWeightedOverlap`/`calculateTotalWeight`
(paragraph-matcher.js lines 168-186): `Math.min(word.length / 3, 3)`. -/
def wordWeight (w : String) : ℚ :=
  min ((w.length : ℚ) / 3) 3

/-- Model of `calculateTotalWeight`. -/
def calculateTotalWeight (words : List String) : ℚ :=
  (words.map wordWeight).sum

/-- Model of `calculateWeightedOverlap`. -/
def calculateWeightedOverlap (words1 words2 : List String) : ℚ :=
  (words1.map (fun w => if w ∈ words2 then wordWeight w else 0)).sum

/-- Model of `semanticSimilarity` (paragraph-matcher.js lines 151-166). -/
def semanticSimilarity (text1 text2 : String) : ℚ :=
  let words1 := contentWords text1
  let words2 := contentWords text2
  if words1.length = 0 ∨ words2.length = 0 then 0
  else
    let overlap := calculateWeightedOverlap words1 words2
    let totalWeight := max (calculateTotalWeight words1) (calculateTotalWeight words2)
    if 0 < totalWeight then overlap / totalWeight else 0

/-- Model of `ParagraphMatcher.calculateSimilarity` (paragraph-matcher.js
lines 11-44): guards for empty or very short inputs, an identical-
normalization fast path, then the weighted combination clamped into
`[0,1]`.  On strings the JS guard `!text1 || !text2` fires exactly on
empty strings. -/
def calculateSimilarity (text1 text2 : String) : ℚ :=
  if text1 = "" ∨ text2 = "" then 0
  else if (jsTrim text1).length < 3 ∨ (jsTrim text2).length < 3 then 0
  else
    let normalized1 := normalizeText text1
    let normalized2 := normalizeText text2
    if normalized1 = normalized2 then 1
    else
      let combinedScore :=
        exactPhraseMatching normalized1 normalized2 * (3/10) +
        longestCommonSubsequence normalized1 normalized2 * (1/4) +
        wordOrderSimilarity normalized1 normalized2 * (1/4) +
        semanticSimilarity normalized1 normalized2 * (1/5)
      min 1 (max 0 combinedScore)

end ParagraphMatcher

/-! ## PipelineManager document matching (manager.js lines 344-431).

The loop body works on the documents fetched from the record store and on
the concatenated `text_content` of their stored blocks/elements; these
inputs are modelled as explicit fields (`text` is the joined text built in
manager.js lines 369-374 resp. 381-386). -/

namespace PipelineManager

/-- A completed PDF (translation) document as seen by the matching loop. -/
structure PdfDoc where
  id : ℕ
  filename : String
  text : String
  deriving DecidableEq

/-- A completed XML (reference) document as seen by the matching loop. -/
structure XmlDoc where
  id : ℕ
  filename : String
  text : String
  deriving DecidableEq

/-- Model of a `document_matches` row inserted by manager.js lines
411-414. -/
structure DocumentMatchRec where
  pdf_id : ℕ
  xml_id : ℕ
  similarity_score : ℝ
  confidence : String
  manual_review : Bool

/-- The combined score of manager.js line 395:
`Math.max(textScore, titleScore * 0.8)`. -/
noncomputable def combinedScore (pdf : PdfDoc) (xml : XmlDoc) : ℝ :=
  max (DocumentMatcher.calculateSimilarity pdf.text xml.text)
    ((DocumentMatcher.calculateDocumentMatchByTitle pdf.filename xml.filename : ℝ)
      * (4/5))

/-- The best-candidate loop of manager.js lines 376-403: fold over the
XML documents keeping the strictly best combined score, starting from
`bestMatch = null`, `bestScore = 0`. -/
noncomputable def bestCandidate (pdf : PdfDoc) (xmls : List XmlDoc) :
    Option XmlDoc × ℝ :=
  xmls.foldl
    (fun acc xml =>
      if combinedScore pdf xml > acc.2 then (some xml, combinedScore pdf xml)
      else acc)
    (none, 0)

/-- The confidence banding of manager.js line 406. -/
noncomputable def confidenceOf (score : ℝ) : String :=
  if score > 3/5 then "high" else if score > 3/10 then "medium" else "low"

/-- The per-PDF decision of manager.js lines 405-417: insert one match
row when a best candidate exists with score above the 0.1 floor, flagged
for review exactly in the lowest band; otherwise insert nothing. -/
noncomputable def matchRecordsFor (pdf : PdfDoc) (xmls : List XmlDoc) :
    List DocumentMatchRec :=
  match bestCandidate pdf xmls with
  | (some bestMatch, bestScore) =>
    if bestScore > 1/10 then
      let confidence := confidenceOf bestScore
      [⟨pdf.id, bestMatch.id, bestScore, confidence,
        if confidence = "low" then true else false⟩]
    else []
  | (none, _) => []

/-- Model of `runDocumentMatching` restricted to its effect on the
`document_matches` table: the store's `handleInsert` appends one row per
inserted match and never deletes or deduplicates, so a run appends
`matchRecordsFor` of every processed PDF to the existing table. -/
noncomputable def runDocumentMatching (pdfs : List PdfDoc) (xmls : List XmlDoc)
    (documentMatches : List DocumentMatchRec) : List DocumentMatchRec :=
  pdfs.foldl (fun acc pdf => acc ++ matchRecordsFor pdf xmls) documentMatches

/-! ## PipelineManager paragraph matching (manager.js lines 452-523),
instrumented with a similarity-call counter. -/

/-- A `text_blocks` row as seen by the paragraph loop. -/
structure TextBlock where
  id : ℕ
  text_content : String
  deriving DecidableEq

/-- An `xml_elements` row as seen by the paragraph loop. -/
structure XmlElement where
  id : ℕ
  text_content : String
  deriving DecidableEq

/-- Model of a `paragraph_matches` row inserted by manager.js lines
503-507. -/
structure ParagraphMatchRec where
  text_block_id : ℕ
  xml_element_id : ℕ
  similarity_score : ℚ
  confidence : String
  manual_review : Bool
  deriving DecidableEq

/-- The inner loop of manager.js lines 482-495: score the text block
against every XML element of the matched reference document, returning
the best candidate together with the number of
`paragraphMatcher.calculateSimilarity` calls performed (one per element,
unconditionally). -/
def bestParagraphCandidate (block : TextBlock) (xmlElements : List XmlElement) :
    (Option XmlElement × ℚ) × ℕ :=
  xmlElements.foldl
    (fun acc xmlElement =>
      let score :=
        ParagraphMatcher.calculateSimilarity block.text_content xmlElement.text_content
      ((if score > acc.1.2 then (some xmlElement, score) else acc.1), acc.2 + 1))
    ((none, 0), 0)

/-- The confidence banding of manager.js line 498. -/
def paragraphConfidenceOf (score : ℚ) : String :=
  if score > 7/10 then "high" else if score > 1/2 then "medium" else "low"

/-- The outer loop of manager.js lines 478-513: every text block is
processed against the full element list (there is no cursor, window or
quarantine state), inserting a row when the best score clears the 0.4
threshold.  The second component accumulates the total number of
similarity-scoring calls. -/
def runParagraphPass (textBlocks : List TextBlock) (xmlElements : List XmlElement) :
    List ParagraphMatchRec × ℕ :=
  textBlocks.foldl
    (fun acc textBlock =>
      let bestAndCount := bestParagraphCandidate textBlock xmlElements
      let newRecs :=
        match bestAndCount.1 with
        | (some bestMatch, bestScore) =>
          if bestScore > 2/5 then
            let confidence := paragraphConfidenceOf bestScore
            [(⟨textBlock.id, bestMatch.id, bestScore, confidence,
               if confidence = "low" then true else false⟩ : ParagraphMatchRec)]
          else []
        | (none, _) => []
      (acc.1 ++ newRecs, acc.2 + bestAndCount.2))
    ([], 0)

/-- The similarity-call count of one pass-1 run. -/
def pass1ScoringCalls (textBlocks : List TextBlock) (xmlElements : List XmlElement) : ℕ :=
  (runParagraphPass textBlocks xmlElements).2

end PipelineManager

/-! ## The JSON record store (database/index.js).

`runQuery` parses its SQL strings with JavaScript regexes.  Crucially,
the WHERE-clause detectors `/where (.+)$/i` and
`/where (.+?)(?:\s+order|\s+group|\s+limit|$)/i` are compiled without the
`m` flag, so `$` matches only at the very end of the input and `.` never
matches a newline: a WHERE clause on a non-final line of a multi-line
template literal is invisible to them.  The models below reproduce this
behaviour exactly, because every statement issued by `PipelineManager`
through template literals ends with a newline and trailing indentation. -/

/-- JavaScript values stored in record fields and passed as query
parameters.  Absent fields (`undefined`) are modelled by absence from the
association list. -/
inductive JsVal where
  | str (s : String)
  | num (q : ℚ)
  | boolean (b : Bool)
  | null
  deriving DecidableEq

/-- A stored record: field names to values, in insertion order. -/
abbrev DbRecord := List (String × JsVal)

/-- The in-memory database: named tables plus the auto-increment
counter. -/
structure Db where
  tables : List (String × List DbRecord)
  nextId : ℚ
  deriving DecidableEq

/-- Read a record field (JS property access; `none` is `undefined`). -/
def recGet (r : DbRecord) (k : String) : Option JsVal :=
  r.lookup k

/-- Write a record field (JS property assignment: update in place, or
append a new field). -/
def recSet (r : DbRecord) (k : String) (v : JsVal) : DbRecord :=
  if r.any (fun kv => kv.1 = k) then
    r.map (fun kv => if kv.1 = k then (k, v) else kv)
  else r ++ [(k, v)]

/-- Look up a table (missing tables read as absent, like JS
`database[tableName]` being `undefined`). -/
def getTable (db : Db) (name : String) : Option (List DbRecord) :=
  db.tables.lookup name

/-- Replace (or create) a table. -/
def setTable (db : Db) (name : String) (rows : List DbRecord) : Db :=
  if db.tables.any (fun t => t.1 = name) then
    { db with tables := db.tables.map (fun t => if t.1 = name then (name, rows) else t) }
  else { db with tables := db.tables ++ [(name, rows)] }

/-- JavaScript loose equality `==` restricted to the value shapes the
pipeline stores (ids and parameters of like type; the store only ever
compares numbers with numbers here). -/
def jsLooseEq : JsVal → JsVal → Bool
  | .str a, .str b => a = b
  | .num a, .num b => a = b
  | .boolean a, .boolean b => a = b
  | .null, .null => true
  | _, _ => false

/-- Substring test (`String.prototype.includes`). -/
def strHasSubGo (needle : List Char) : List Char → Bool
  | [] => needle = []
  | c :: rest => (c :: rest).take needle.length = needle || strHasSubGo needle rest

/-- Model of `hay.includes(needle)`. -/
def strHasSub (needle hay : String) : Bool :=
  strHasSubGo needle.toList hay.toList

/-- Model of `String.prototype.startsWith`. -/
def strStartsWith (pre s : String) : Bool :=
  s.toList.take pre.length = pre.toList

/-- Split on a single character, keeping empty pieces (the `split(',')`
and `split('=')` of the store's SET/columns parsing). -/
def splitOnCharGo (sep : Char) : List Char → List Char → List String
  | [], cur => [⟨cur.reverse⟩]
  | c :: rest, cur =>
    if c = sep then ⟨cur.reverse⟩ :: splitOnCharGo sep rest []
    else splitOnCharGo sep rest (c :: cur)

/-- Model of `s.split(sep)` for a one-character separator. -/
def splitOnChar (sep : Char) (s : String) : List String :=
  splitOnCharGo sep s.toList []

/-- Scan for the first occurrence of `kw` (given lowercase, with its
trailing space) followed by at least one word character; capture the
maximal word-character run.  Models the table-name regexes
`/insert into (\w+)/i`, `/update (\w+)/i`, `/delete from (\w+)/i` and
`/from (\w+)/i`. -/
def jsKeywordWordCaptureGo (kw : List Char) : List Char → Option String
  | [] => none
  | c :: rest =>
    let l := c :: rest
    let cap := (l.drop kw.length).takeWhile jsIsWordChar
    if (l.take kw.length).map Char.toLower = kw ∧ cap ≠ [] then some ⟨cap⟩
    else jsKeywordWordCaptureGo kw rest

/-- Capture of `/<keyword> (\w+)/i` over a SQL string. -/
def jsKeywordWordCapture (kw : String) (sql : String) : Option String :=
  jsKeywordWordCaptureGo kw.toList sql.toList

/-- Scan for a match of `/where (.+)$/i`: an occurrence of `where `
followed by at least one character, running to the very end of the input
with no intervening newline (no `m` flag: `$` is end-of-input only, `.`
excludes line terminators). -/
def jsWhereToEndGo : List Char → Option String
  | [] => none
  | c :: rest =>
    let l := c :: rest
    let cap := l.drop 6
    if (l.take 6).map Char.toLower = "where ".toList ∧ cap ≠ [] ∧
        ¬ cap.any (fun d => d = '\n') then
      some ⟨cap⟩
    else jsWhereToEndGo rest

/-- Capture of `/where (.+)$/i` (used by `handleUpdate` and
`handleDelete`). -/
def jsWhereToEndCapture (sql : String) : Option String :=
  jsWhereToEndGo sql.toList

/-- Lazy capture `(.+?)` followed by a terminator test, as in
`/set (.+?)(?:\s+where|$)/i`: consume one non-newline character at a
time, stopping as soon as the terminator matches at the remainder. -/
def jsLazyCaptureGo (term : List Char → Bool) : List Char → List Char → Option String
  | acc, rem =>
    if acc ≠ [] ∧ term rem then some ⟨acc.reverse⟩
    else
      match rem with
      | [] => none
      | c :: rest => if c = '\n' then none else jsLazyCaptureGo term (c :: acc) rest

/-- Terminator `(?:\s+where|$)` of the SET-clause regex: end of input, or
one-or-more whitespace characters followed by `where`
(case-insensitively). -/
def jsSetTermAt (l : List Char) : Bool :=
  if l = [] then true
  else
    let ws := l.takeWhile jsIsSpace
    ws ≠ [] ∧ ((l.drop ws.length).take 5).map Char.toLower = "where".toList

/-- Scan for the first position where `/set (.+?)(?:\s+where|$)/i` can
match and return the capture. -/
def jsSetCaptureGo : List Char → Option String
  | [] => none
  | c :: rest =>
    let l := c :: rest
    if (l.take 4).map Char.toLower = "set ".toList then
      match jsLazyCaptureGo jsSetTermAt [] (l.drop 4) with
      | some cap => some cap
      | none => jsSetCaptureGo rest
    else jsSetCaptureGo rest

/-- Capture of `/set (.+?)(?:\s+where|$)/i` (used by `handleUpdate`). -/
def jsSetCapture (sql : String) : Option String :=
  jsSetCaptureGo sql.toList

/-- Terminator `(?:\s+order|\s+group|\s+limit|$)` of the SELECT WHERE
regex. -/
def jsSelectTermAt (l : List Char) : Bool :=
  if l = [] then true
  else
    let ws := l.takeWhile jsIsSpace
    let after := (l.drop ws.length).take 5
    ws ≠ [] ∧ (after.map Char.toLower = "order".toList ∨
      after.map Char.toLower = "group".toList ∨
      after.map Char.toLower = "limit".toList)

/-- Scan for the first position where
`/where (.+?)(?:\s+order|\s+group|\s+limit|$)/i` can match and return the
capture (used by `handleSelect`). -/
def jsSelectWhereGo : List Char → Option String
  | [] => none
  | c :: rest =>
    let l := c :: rest
    if (l.take 6).map Char.toLower = "where ".toList then
      match jsLazyCaptureGo jsSelectTermAt [] (l.drop 6) with
      | some cap => some cap
      | none => jsSelectWhereGo rest
    else jsSelectWhereGo rest

/-- Capture of the SELECT WHERE-clause regex. -/
def jsSelectWhereCapture (sql : String) : Option String :=
  jsSelectWhereGo sql.toList

/-- Capture of `/\(([^)]+)\)/`: the first parenthesis followed by a
non-empty run of non-`)` characters and a closing parenthesis. -/
def jsParenCaptureGo : List Char → Option String
  | [] => none
  | c :: rest =>
    let cap := rest.takeWhile (fun d => d ≠ ')')
    if c = '(' ∧ cap ≠ [] ∧ cap.length < rest.length then some ⟨cap⟩
    else jsParenCaptureGo rest

/-- Columns capture of `handleInsert`. -/
def jsParenCapture (sql : String) : Option String :=
  jsParenCaptureGo sql.toList

/-- Existence test for `/values\s*\(([^)]*)\)/i` in `handleInsert`. -/
def jsValuesMatchExists : List Char → Bool
  | [] => false
  | c :: rest =>
    let l := c :: rest
    let after := l.drop 6
    let afterWs := after.drop (after.takeWhile jsIsSpace).length
    let parenOk : Bool :=
      match afterWs with
      | '(' :: r2 => (r2.takeWhile (fun d => d ≠ ')')).length < r2.length
      | _ => false
    if (l.take 6).map Char.toLower = "values".toList ∧ parenOk = true then true
    else jsValuesMatchExists rest

/-- Model of `handleInsert` (database/index.js lines 86-127): extract the
table name and column list, build a record with the auto-increment id,
the positional parameters, and a `created_at` timestamp (plus
`updated_at` when listed), then push it onto the table (creating the
table when missing).  `now` stands for `new Date().toISOString()`.  The
returned number is `lastID`. -/
def handleInsert (sql : String) (params : List JsVal) (now : String) (db : Db) :
    Except String (Db × ℚ) :=
  match jsKeywordWordCapture "insert into " sql with
  | none => .error "Invalid INSERT syntax"
  | some tableName =>
    match jsParenCapture sql with
    | none => .error "Invalid INSERT syntax"
    | some colsCapture =>
      if jsValuesMatchExists sql.toList then
        let columns := (splitOnChar ',' colsCapture).map jsTrim
        let base : DbRecord := [("id", JsVal.num db.nextId)]
        let withCols := (columns.enum).foldl
          (fun r iv =>
            match params.get? iv.1 with
            | some v => recSet r iv.2 v
            | none => r)
          base
        let withCreated := recSet withCols "created_at" (JsVal.str now)
        let record :=
          if "updated_at" ∈ columns then
            recSet withCreated "updated_at" (JsVal.str now)
          else withCreated
        let rows := (getTable db tableName).getD []
        .ok (setTable { db with nextId := db.nextId + 1 } tableName (rows ++ [record]),
          db.nextId)
      else .error "Invalid INSERT syntax"

/-- Apply one parsed `col = value` item of a SET clause to a record,
threading the shared parameter cursor (database/index.js lines 159-166 and
187-194).  `bound` is the exclusive upper limit on the cursor
(`params.length`, or `params.length - 1` in the WHERE branch). -/
def applySetItem (params : List JsVal) (bound : ℕ) (now : String)
    (st : DbRecord × ℕ) (update : String) : DbRecord × ℕ :=
  let parts := (splitOnChar '=' update).map jsTrim
  let col := parts.getD 0 ""
  let value := parts.getD 1 ""
  if value = "?" ∧ st.2 < bound then
    (recSet st.1 col (params.getD st.2 JsVal.null), st.2 + 1)
  else if value = "CURRENT_TIMESTAMP" then
    (recSet st.1 col (JsVal.str now), st.2)
  else st

/-- Refresh `updated_at` when the field exists on the record
(`if (record.updated_at !== undefined)`). -/
def refreshUpdatedAt (now : String) (r : DbRecord) : DbRecord :=
  match recGet r "updated_at" with
  | some _ => recSet r "updated_at" (JsVal.str now)
  | none => r

/-- Model of `handleUpdate` (database/index.js lines 129-210).  When the
end-anchored WHERE regex finds no clause, every record of the table is
updated, with the parameter cursor shared across records; otherwise only
the first record whose `id` loosely equals the last parameter is updated.
The returned number is `changes`. -/
def handleUpdate (sql : String) (params : List JsVal) (now : String) (db : Db) :
    Except String (Db × ℚ) :=
  match jsKeywordWordCapture "update " sql with
  | none => .error "Invalid UPDATE syntax"
  | some tableName =>
    match jsSetCapture sql with
    | none => .error "Invalid UPDATE syntax - no SET clause"
    | some setClause =>
      match getTable db tableName with
      | none => .ok (db, 0)
      | some rows =>
        let updates := (splitOnChar ',' setClause).map jsTrim
        match jsWhereToEndCapture sql with
        | none =>
          let step := fun (st : List DbRecord × ℕ) (r : DbRecord) =>
            let applied := updates.foldl (applySetItem params params.length now) (r, st.2)
            (st.1 ++ [refreshUpdatedAt now applied.1], applied.2)
          let folded := rows.foldl step ([], 0)
          .ok (setTable db tableName folded.1, (rows.length : ℚ))
        | some whereClause =>
          if strHasSub "id = ?" whereClause then
            let targetId := params.getLastD JsVal.null
            match rows.find? (fun r =>
                match recGet r "id" with
                | some v => jsLooseEq v targetId
                | none => false) with
            | none => .ok (db, 0)
            | some r =>
              let applied := updates.foldl
                (applySetItem params (params.length - 1) now) (r, 0)
              let updatedRec := refreshUpdatedAt now applied.1
              let newRows := rows.map (fun row => if row = r then updatedRec else row)
              .ok (setTable db tableName newRows, 1)
          else .ok (db, 0)

/-- Model of `handleDelete` (database/index.js lines 212-246): refuse a
statement in which the end-anchored WHERE regex finds no clause; with an
`id = ?` clause remove every record whose `id` loosely equals the first
parameter; other clauses change nothing. -/
def handleDelete (sql : String) (params : List JsVal) (db : Db) :
    Except String (Db × ℚ) :=
  match jsKeywordWordCapture "delete from " sql with
  | none => .error "Invalid DELETE syntax"
  | some tableName =>
    match jsWhereToEndCapture sql with
    | none => .error "DELETE without WHERE not allowed"
    | some whereClause =>
      match getTable db tableName with
      | none => .ok (db, 0)
      | some rows =>
        if strHasSub "id = ?" whereClause then
          let targetId := params.getD 0 JsVal.null
          let newRows := rows.filter (fun r =>
            ! (match recGet r "id" with
               | some v => jsLooseEq v targetId
               | none => false))
          .ok (setTable db tableName newRows,
            ((rows.length - newRows.length : ℕ) : ℚ))
        else .ok (db, 0)

/-- Model of `runQuery` (database/index.js lines 67-84), dispatching on
the lowercased, trimmed statement. -/
def runQuery (sql : String) (params : List JsVal) (now : String) (db : Db) :
    Except String (Db × ℚ) :=
  let sqlLower := jsTrim (jsToLower sql)
  if strStartsWith "insert into" sqlLower then handleInsert sql params now db
  else if strStartsWith "update" sqlLower then handleUpdate sql params now db
  else if strStartsWith "delete" sqlLower then handleDelete sql params db
  else .error "Unsupported SQL operation"

/-- Model of `handleSelect` (database/index.js lines 271-341) for the
statements the pipeline issues (none of which carry ORDER BY, GROUP BY or
LIMIT): read the table and filter by the detected WHERE clause, if any.
An undetected clause leaves the table unfiltered. -/
def handleSelect (sql : String) (params : List JsVal) (db : Db) :
    Except String (List DbRecord) :=
  match jsKeywordWordCapture "from " sql with
  | none => .error "Invalid SELECT syntax"
  | some tableName =>
    let rows := (getTable db tableName).getD []
    match jsSelectWhereCapture sql with
    | none => .ok rows
    | some whereClause =>
      let fieldEq := fun (r : DbRecord) (field : String) (v : JsVal) =>
        match recGet r field with
        | some w => jsLooseEq w v
        | none => false
      .ok (rows.filter (fun r =>
        if strHasSub "id = ?" whereClause then fieldEq r "id" (params.getD 0 JsVal.null)
        else if strHasSub "type = ?" whereClause then
          fieldEq r "type" (params.getD 0 JsVal.null)
        else if strHasSub "status = ?" whereClause then
          fieldEq r "status" (params.getD 0 JsVal.null)
        else if strHasSub "document_id = ?" whereClause then
          fieldEq r "document_id" (params.getD 0 JsVal.null)
        else if strHasSub "filename = ? AND type = ?" whereClause then
          fieldEq r "filename" (params.getD 0 JsVal.null) &&
            fieldEq r "type" (params.getD 1 JsVal.null)
        else true))

/-- Model of `getQuery` (database/index.js lines 248-255): first result
or `undefined`. -/
def getQuery (sql : String) (params : List JsVal) (db : Db) :
    Except String (Option DbRecord) :=
  (handleSelect sql params db).map List.head?

/-! ## PipelineManager statements issued through the record store.

Each constant reproduces the manager's template literal byte for byte,
including the leading newline and the trailing newline plus closing
indentation, which is what defeats the store's end-anchored WHERE
detection. -/

namespace PipelineManager

/-- The DELETE of `rejectMatch` (manager.js lines 533-537). -/
def sqlRejectMatch : String :=
  "\n            DELETE FROM paragraph_matches WHERE id = ?\n        "

/-- The UPDATE of `approveMatch` (manager.js lines 525-531). -/
def sqlApproveMatch : String :=
  "\n            UPDATE paragraph_matches \n            SET approved = TRUE, manual_review = FALSE \n            WHERE id = ?\n        "

/-- The INSERT of `createJob` (manager.js lines 546-552). -/
def sqlCreateJob : String :=
  "\n            INSERT INTO pipeline_jobs (job_type, current_item)\n            VALUES (?, ?)\n        "

/-- The UPDATE of `updateJobStatus` (manager.js lines 554-560). -/
def sqlUpdateJobStatus : String :=
  "\n            UPDATE pipeline_jobs \n            SET status = ?, error_message = ?, updated_at = CURRENT_TIMESTAMP\n            WHERE id = ?\n        "

/-- The UPDATE of `updateJobProgress` (manager.js lines 562-568). -/
def sqlUpdateJobProgress : String :=
  "\n            UPDATE pipeline_jobs \n            SET progress = ?, total_items = ?, updated_at = CURRENT_TIMESTAMP\n            WHERE id = ?\n        "

/-- The document-pair lookup of `runParagraphMatching` (manager.js lines
457-459). -/
def sqlSelectDocumentMatch : String :=
  "\n                SELECT * FROM document_matches WHERE id = ?\n            "

/-- The text-block fetch of `runParagraphMatching` (manager.js lines
464-466). -/
def sqlSelectTextBlocks : String :=
  "\n                SELECT * FROM text_blocks WHERE document_id = ?\n            "

/-- The element fetch of `runParagraphMatching` (manager.js lines
468-470). -/
def sqlSelectXmlElements : String :=
  "\n                SELECT * FROM xml_elements WHERE document_id = ?\n            "

/-- The INSERT of `runParagraphMatching` (manager.js lines 503-507). -/
def sqlInsertParagraphMatch : String :=
  "\n                        INSERT INTO paragraph_matches \n                        (text_block_id, xml_element_id, similarity_score, confidence, manual_review)\n                        VALUES (?, ?, ?, ?, ?)\n                    "

/-- Model of `rejectMatch` (manager.js lines 533-537). -/
def rejectMatch (now : String) (db : Db) (matchId : ℚ) : Except String (Db × ℚ) :=
  runQuery sqlRejectMatch [JsVal.num matchId] now db

/-- Model of `createJob` (manager.js lines 546-552), returning the new
job id (`result.lastID`). -/
def createJob (now : String) (db : Db) (jobType description : String) :
    Except String (Db × ℚ) :=
  runQuery sqlCreateJob [JsVal.str jobType, JsVal.str description] now db

/-- Model of `updateJobStatus` (manager.js lines 554-560); the default
`errorMessage` argument is JS `null`. -/
def updateJobStatus (now : String) (db : Db) (jobId : ℚ) (status : String)
    (errorMessage : JsVal) : Except String (Db × ℚ) :=
  runQuery sqlUpdateJobStatus [JsVal.str status, errorMessage, JsVal.num jobId] now db

/-- Model of `updateJobProgress` (manager.js lines 562-568). -/
def updateJobProgress (now : String) (db : Db) (jobId progress total : ℚ) :
    Except String (Db × ℚ) :=
  runQuery sqlUpdateJobProgress
    [JsVal.num progress, JsVal.num total, JsVal.num jobId] now db

/-- The string a stored field contributes when the paragraph matcher is
called on it (`block.text_content`); the matcher treats a missing or
non-string value like an empty text through its falsy guard. -/
def storedText (r : DbRecord) (field : String) : String :=
  match recGet r field with
  | some (JsVal.str s) => s
  | _ => ""

/-- The catch-block of `runParagraphMatching` (manager.js lines 518-522):
mark the job failed, persisting `error.message` as the job error.  The
result pairs the final store with the propagated error message. -/
def jobFail (now : String) (db : Db) (jobId : ℚ) (msg : String) :
    Db × Option String :=
  match updateJobStatus now db jobId "failed" (JsVal.str msg) with
  | .ok res => (res.1, some msg)
  | .error _ => (db, some msg)

/-- Model of `runParagraphMatching` (manager.js lines 452-523) as a state
transformer on the record store: mark the job running, look up the
document pair, fetch blocks and elements, then run the scoring loop with
per-block progress updates and match inserts; any thrown error lands in
the catch block (`jobFail`).  The second component is the error message
of a failed run (`none` on success). -/
def runParagraphMatchingDb (now : String) (db : Db) (jobId documentPairId : ℚ) :
    Db × Option String :=
  match updateJobStatus now db jobId "running" JsVal.null with
  | .error e => jobFail now db jobId e
  | .ok (db1, _) =>
    match getQuery sqlSelectDocumentMatch [JsVal.num documentPairId] db1 with
    | .error e => jobFail now db1 jobId e
    | .ok none => jobFail now db1 jobId "Document pair not found"
    | .ok (some docMatch) =>
      let pdfIdVal := (recGet docMatch "pdf_id").getD JsVal.null
      let xmlIdVal := (recGet docMatch "xml_id").getD JsVal.null
      match handleSelect sqlSelectTextBlocks [pdfIdVal] db1,
            handleSelect sqlSelectXmlElements [xmlIdVal] db1 with
      | .error e, _ => jobFail now db1 jobId e
      | _, .error e => jobFail now db1 jobId e
      | .ok textBlocks, .ok xmlElements =>
        let afterInit := updateJobProgress now db1 jobId 0 (textBlocks.length : ℚ)
        match afterInit with
        | .error e => jobFail now db1 jobId e
        | .ok (db2, _) =>
          let step := fun (st : Except String Db) (ib : ℕ × DbRecord) =>
            match st with
            | .error e => .error e
            | .ok dbCur =>
              let textBlock := ib.2
              let best := xmlElements.foldl
                (fun (acc : Option DbRecord × ℚ) xmlElement =>
                  let score := ParagraphMatcher.calculateSimilarity
                    (storedText textBlock "text_content")
                    (storedText xmlElement "text_content")
                  if score > acc.2 then (some xmlElement, score) else acc)
                (none, 0)
              let afterInsert : Except String Db :=
                match best.1 with
                | some bestMatch =>
                  if best.2 > 2/5 then
                    let confidence :=
                      if best.2 > 7/10 then "high"
                      else if best.2 > 1/2 then "medium" else "low"
                    match runQuery sqlInsertParagraphMatch
                        [(recGet textBlock "id").getD JsVal.null,
                         (recGet bestMatch "id").getD JsVal.null,
                         JsVal.num best.2, JsVal.str confidence,
                         JsVal.boolean (if confidence = "low" then true else false)]
                        now dbCur with
                    | .ok res => .ok res.1
                    | .error e => .error e
                  else .ok dbCur
                | none => .ok dbCur
              match afterInsert with
              | .error e => .error e
              | .ok db3 =>
                match updateJobProgress now db3 jobId ((ib.1 + 1 : ℕ) : ℚ)
                    (textBlocks.length : ℚ) with
                | .ok res => .ok res.1
                | .error e => .error e
          match textBlocks.enum.foldl step (.ok db2) with
          | .error e => jobFail now db2 jobId e
          | .ok db4 =>
            match updateJobStatus now db4 jobId "completed" JsVal.null with
            | .ok res => (res.1, none)
            | .error e => jobFail now db4 jobId e

end PipelineManager

/-! ## XmlProcessor (xml-processor.js): the DOM fragment of a structural
unit and `updateElementText`. -/

namespace XmlProcessor

/-- A DOM node: an element with tag, attributes and ordered children, or
a text node (its string is the `nodeValue`). -/
inductive Node where
  | element (tag : String) (attrs : List (String × String)) (children : List Node)
  | text (s : String)

/-- Model of `hasFormattingChildren` (xml-processor.js lines 316-329):
does the element have a direct child element whose lowercased tag is one
of the inline-formatting tags. -/
def hasFormattingChildren : Node → Bool
  | .text _ => false
  | .element _ _ children =>
    children.any (fun child =>
      match child with
      | .element tag _ _ =>
        jsToLower tag ∈ (["span", "strong", "em", "i", "b", "a"] : List String)
      | .text _ => false)

mutual

/-- Replace the text-node values of a subtree in document order: the node
numbered `k = 0` receives `newText`, all later ones the empty string.
This is the functional form of `textNodes[0].nodeValue = newText`
followed by clearing the rest (xml-processor.js lines 306-313); the
second component is the updated running count of text nodes seen. -/
def setTextNodesNode (newText : String) : Node → ℕ → Node × ℕ
  | .text _, k => (.text (if k = 0 then newText else ""), k + 1)
  | .element tag attrs children, k =>
    let inner := setTextNodesList newText children k
    (.element tag attrs inner.1, inner.2)

/-- The list form of `setTextNodesNode`, threading the counter through
the children in order. -/
def setTextNodesList (newText : String) : List Node → ℕ → List Node × ℕ
  | [], k => ([], k)
  | n :: rest, k =>
    let first := setTextNodesNode newText n k
    let done := setTextNodesList newText rest first.2
    (first.1 :: done.1, done.2)

end

mutual

/-- The text-node values of a subtree in document order (`getTextNodes`,
xml-processor.js lines 331-346). -/
def getTextNodes : Node → List String
  | .text s => [s]
  | .element _ _ children => getTextNodesList children

/-- The list form of `getTextNodes`. -/
def getTextNodesList : List Node → List String
  | [] => []
  | n :: rest => getTextNodes n ++ getTextNodesList rest

end

mutual

/-- The flattened text content of a node (`getTextContent`,
xml-processor.js lines 135-156). -/
def getTextContent : Node → String
  | .text s => s
  | .element _ _ children => getTextContentList children

/-- The list form of `getTextContent`. -/
def getTextContentList : List Node → String
  | [] => ""
  | n :: rest => getTextContent n ++ getTextContentList rest

end

/-- Model of `updateElementText` (xml-processor.js lines 293-314).  For
an element without inline-formatting children the whole content is
replaced (`element.textContent = newText` replaces all children with a
single text node).  Otherwise the first text node in document order
receives the whole translation and every other text node is cleared;
tags and attributes are untouched. -/
def updateElementText (element : Node) (newText : String) : Node :=
  match element with
  | .text s => .text s
  | .element tag attrs children =>
    if hasFormattingChildren (.element tag attrs children) = false then
      .element tag attrs [.text newText]
    else
      let textNodes := getTextNodes (.element tag attrs children)
      if 0 < textNodes.length then
        .element tag attrs (setTextNodesList newText children 0).1
      else .element tag attrs children

end XmlProcessor

/-! ## PdfProcessor.detectLanguage (pdf-processor.js lines 329-367). -/

namespace PdfProcessor

/-- A text block as passed to `detectLanguage`. -/
structure TextBlockIn where
  text : String

/-- The ISO-639-3-to-name map of `detectLanguage` (pdf-processor.js lines
346-359). -/
def languageMap : List (String × String) :=
  [("eng", "English"), ("spa", "Spanish"), ("fra", "French"),
   ("deu", "German"), ("ita", "Italian"), ("por", "Portuguese"),
   ("rus", "Russian"), ("ara", "Arabic"), ("per", "Persian"),
   ("tur", "Turkish"), ("urd", "Urdu"), ("hin", "Hindi")]

/-- Model of `Array.prototype.join(' ')`. -/
def jsJoinWithSpace : List String → String
  | [] => ""
  | [s] => s
  | s :: rest => s ++ " " ++ jsJoinWithSpace rest

/-- The detection sample (pdf-processor.js lines 332-336): first five
blocks joined by spaces, truncated to 1000 characters
(`substring(0, 1000)`). -/
def sampleTextOf (textBlocks : List TextBlockIn) : String :=
  ⟨(jsJoinWithSpace ((textBlocks.take 5).map TextBlockIn.text)).toList.take 1000⟩

/-- Model of `detectLanguage`, parameterized by the external `franc`
detector (an arbitrary total function on the sample).  Mirrors
`languageMap[detectedLang] || detectedLang || 'unknown'`: every name in
the map is a non-empty (truthy) string, so a map hit is returned as is;
otherwise the raw code when truthy (non-empty), else the fallback. -/
def detectLanguage (franc : String → String) (textBlocks : List TextBlockIn) :
    String :=
  let sampleText := sampleTextOf textBlocks
  if sampleText.length < 10 then "unknown"
  else
    let detectedLang := franc sampleText
    match languageMap.lookup detectedLang with
    | some name => name
    | none => if detectedLang ≠ "" then detectedLang else "unknown"

end PdfProcessor

/-! ## Concrete scenario data used by the theorems below. -/

/-- The structural unit of the round-trip formatting scenario:
`<p>This is <span class="hl">important</span> text.</p>`. -/
def exampleUnit : XmlProcessor.Node :=
  .element "p" []
    [.text "This is ",
     .element "span" [("class", "hl")] [.text "important"],
     .text " text."]

/-- The translation text of the round-trip formatting scenario. -/
def exampleTranslation : String := "Esto es vital realmente"

/-- A completed translation document whose joined block text is `"ab"`. -/
def examplePdf : PipelineManager.PdfDoc := ⟨1, "a.pdf", "ab"⟩

/-- A completed reference document whose joined element text is `"ab"`. -/
def exampleXml : PipelineManager.XmlDoc := ⟨2, "b.xml", "ab"⟩

/-- A fixed timestamp standing for `new Date().toISOString()`. -/
def exampleNow : String := "2025-01-01T00:00:00.000Z"

/-- An empty store before any job exists (auto-increment at 1, as after
`initializeDatabase` on a fresh file). -/
def exampleEmptyDb : Db := ⟨[], 1⟩

/-- The `pipeline_jobs` row that `createJob('paragraph_matching',
'Paragraph matching for pair 7')` inserts into the empty store. -/
def exampleJobRecord : DbRecord :=
  [("id", JsVal.num 1),
   ("job_type", JsVal.str "paragraph_matching"),
   ("current_item", JsVal.str "Paragraph matching for pair 7"),
   ("created_at", JsVal.str exampleNow)]

/-- The store after that `createJob` call: one job, no document matches. -/
def exampleDbWithJob : Db := ⟨[("pipeline_jobs", [exampleJobRecord])], 1 + 1⟩

/-- A store holding two paragraph matches, used to exercise
`rejectMatch`. -/
def exampleDbWithParagraphMatches : Db :=
  ⟨[("paragraph_matches",
     [[("id", JsVal.num 5), ("text_block_id", JsVal.num 11)],
      [("id", JsVal.num 6), ("text_block_id", JsVal.num 12)]])], 7⟩

/-- The number of `document_matches` rows recorded for a given
translation (PDF) id. -/
def matchCountFor (rows : List PipelineManager.DocumentMatchRec) (pdfId : ℕ) : ℕ :=
  (rows.filter (fun r => r.pdf_id = pdfId)).length

/-! # Verified properties

Helper lemmas first (shared by several claims), then one theorem per
specification claim, each with its witness or counterexample. -/

theorem normalizeText_eval_empty : normalizeText "" = "" := by decide

theorem normalizeText_eval_x : normalizeText "x" = "x" := by decide

theorem normalizeText_eval_ab : normalizeText "ab" = "ab" := by decide

theorem jaccard_eval_empty : DocumentMatcher.jaccardSimilarity "" "" = 1 := by decide

theorem jaccard_eval_empty_x : DocumentMatcher.jaccardSimilarity "" "x" = 1 := by decide

theorem jaccard_eval_ab : DocumentMatcher.jaccardSimilarity "ab" "ab" = 1 := by decide

theorem cosine_zero_of_no_tokens (text1 text2 : String)
    (h : DocumentMatcher.splitTokens text1 = []) :
    DocumentMatcher.cosineSimilarity text1 text2 = 0 := by
  simp [DocumentMatcher.cosineSimilarity, h]

theorem splitTokens_eval_empty : DocumentMatcher.splitTokens "" = [] := by decide

theorem splitTokens_eval_x : DocumentMatcher.splitTokens "x" = [] := by decide

theorem splitTokens_eval_ab : DocumentMatcher.splitTokens "ab" = [] := by decide

theorem length_eval_empty : DocumentMatcher.lengthSimilarity "" "" = 1 := by decide

theorem length_eval_empty_x : DocumentMatcher.lengthSimilarity "" "x" = 0 := by decide

theorem length_eval_ab : DocumentMatcher.lengthSimilarity "ab" "ab" = 1 := by
  simp only [DocumentMatcher.lengthSimilarity]
  rw [show String.length "ab" = 2 from by decide]
  norm_num

theorem structural_eval_empty : DocumentMatcher.structuralSimilarity "" "" = 0 := by
  simp only [DocumentMatcher.structuralSimilarity]
  rw [show (DocumentMatcher.paragraphsOf "").length = 0 from by decide,
      show (DocumentMatcher.sentencesOf "").length = 0 from by decide]
  norm_num

theorem structural_eval_empty_x : DocumentMatcher.structuralSimilarity "" "x" = 0 := by
  simp only [DocumentMatcher.structuralSimilarity]
  rw [show (DocumentMatcher.paragraphsOf "").length = 0 from by decide,
      show (DocumentMatcher.sentencesOf "").length = 0 from by decide]
  norm_num

theorem structural_eval_ab : DocumentMatcher.structuralSimilarity "ab" "ab" = 1 := by
  simp only [DocumentMatcher.structuralSimilarity]
  rw [show (DocumentMatcher.paragraphsOf "ab").length = 1 from by decide,
      show (DocumentMatcher.sentencesOf "ab").length = 1 from by decide]
  norm_num

theorem calculateSimilarity_unfold (text1 text2 : String) :
    DocumentMatcher.calculateSimilarity text1 text2 =
      min 1 (max 0
        ((DocumentMatcher.jaccardSimilarity (normalizeText text1) (normalizeText text2) : ℝ)
            * (1/4) +
         DocumentMatcher.cosineSimilarity (normalizeText text1) (normalizeText text2)
            * (1/4) +
         (DocumentMatcher.lengthSimilarity text1 text2 : ℝ) * (1/4) +
         (DocumentMatcher.structuralSimilarity text1 text2 : ℝ) * (1/4))) := rfl

theorem calcSim_eval_empty_empty : DocumentMatcher.calculateSimilarity "" "" = 1/2 := by
  rw [calculateSimilarity_unfold, normalizeText_eval_empty, jaccard_eval_empty,
    cosine_zero_of_no_tokens "" "" splitTokens_eval_empty, length_eval_empty,
    structural_eval_empty]
  norm_num

theorem calcSim_eval_empty_x : DocumentMatcher.calculateSimilarity "" "x" = 1/4 := by
  rw [calculateSimilarity_unfold, normalizeText_eval_empty, normalizeText_eval_x,
    jaccard_eval_empty_x, cosine_zero_of_no_tokens "" "x" splitTokens_eval_empty,
    length_eval_empty_x, structural_eval_empty_x]
  norm_num

theorem calcSim_eval_ab_ab : DocumentMatcher.calculateSimilarity "ab" "ab" = 3/4 := by
  rw [calculateSimilarity_unfold, normalizeText_eval_ab, jaccard_eval_ab,
    cosine_zero_of_no_tokens "ab" "ab" splitTokens_eval_ab, length_eval_ab,
    structural_eval_ab]
  norm_num

theorem calcSim_nonneg (text1 text2 : String) :
    0 ≤ DocumentMatcher.calculateSimilarity text1 text2 := by
  rw [calculateSimilarity_unfold]
  exact le_min (by norm_num) (le_max_left 0 _)

theorem calcSim_le_one (text1 text2 : String) :
    DocumentMatcher.calculateSimilarity text1 text2 ≤ 1 :=
  min_le_left 1 _

theorem dedup_append_perm (l1 l2 : List String) :
    (l1 ++ l2).dedup.Perm (l2 ++ l1).dedup := by
  refine (List.perm_ext_iff_of_nodup (List.nodup_dedup _) (List.nodup_dedup _)).mpr ?_
  intro a
  simp [List.mem_dedup, or_comm]

theorem sum_map_of_perm {l1 l2 : List String} (f : String → ℕ) (h : l1.Perm l2) :
    (l1.map f).sum = (l2.map f).sum :=
  (h.map f).sum_eq

theorem vectorNormSq_perm (tokens : List String) {v1 v2 : List String} (h : v1.Perm v2) :
    DocumentMatcher.vectorNormSq tokens v1 = DocumentMatcher.vectorNormSq tokens v2 :=
  sum_map_of_perm _ h

theorem vectorDot_symm (tokens1 tokens2 : List String) {v1 v2 : List String} (h : v1.Perm v2) :
    DocumentMatcher.vectorDot tokens1 tokens2 v1 = DocumentMatcher.vectorDot tokens2 tokens1 v2 := by
  unfold DocumentMatcher.vectorDot
  rw [sum_map_of_perm _ h]
  congr 1
  exact List.map_congr_left fun w _ => Nat.mul_comm _ _

theorem cosine_symm (text1 text2 : String) :
    DocumentMatcher.cosineSimilarity text1 text2 = DocumentMatcher.cosineSimilarity text2 text1 := by
  unfold DocumentMatcher.cosineSimilarity
  set tok1 := DocumentMatcher.splitTokens text1
  set tok2 := DocumentMatcher.splitTokens text2
  have hperm := dedup_append_perm tok1 tok2
  by_cases h : tok1.length = 0 ∨ tok2.length = 0
  · rw [if_pos h, if_pos (Or.symm h)]
  · rw [if_neg h, if_neg (fun hc => h (Or.symm hc))]
    dsimp only
    rw [vectorDot_symm tok1 tok2 hperm,
        vectorNormSq_perm tok1 hperm, vectorNormSq_perm tok2 hperm]
    by_cases hm : DocumentMatcher.vectorNormSq tok1 ((tok2 ++ tok1).dedup) = 0 ∨
        DocumentMatcher.vectorNormSq tok2 ((tok2 ++ tok1).dedup) = 0
    · rw [if_pos hm, if_pos (Or.symm hm)]
    · rw [if_neg hm, if_neg (fun hc => hm (Or.symm hc))]
      rw [mul_comm]

theorem filter_mem_length_comm (l1 l2 : List String) (h1 : l1.Nodup) (h2 : l2.Nodup) :
    (l1.filter (fun t => t ∈ l2)).length = (l2.filter (fun t => t ∈ l1)).length := by
  have key : ∀ (a b : List String), a.Nodup →
      (a.filter (fun t => t ∈ b)).length = (a.toFinset ∩ b.toFinset).card := by
    intro a b ha
    rw [← List.toFinset_card_of_nodup (ha.filter _)]
    congr 1
    rw [List.toFinset_filter]
    ext x
    simp [List.mem_toFinset]
  rw [key l1 l2 h1, key l2 l1 h2, Finset.inter_comm]

theorem jaccard_symm (text1 text2 : String) :
    DocumentMatcher.jaccardSimilarity text1 text2 =
      DocumentMatcher.jaccardSimilarity text2 text1 := by
  unfold DocumentMatcher.jaccardSimilarity
  dsimp only
  set k1 := (DocumentMatcher.splitTokens text1).dedup
  set k2 := (DocumentMatcher.splitTokens text2).dedup
  by_cases hA : k1.length = 0 ∧ k2.length = 0
  · rw [if_pos hA, if_pos (And.symm hA)]
  · rw [if_neg hA, if_neg (fun hc => hA (And.symm hc))]
    by_cases hB : k1.length = 0 ∨ k2.length = 0
    · rw [if_pos hB, if_pos (Or.symm hB)]
    · rw [if_neg hB, if_neg (fun hc => hB (Or.symm hc))]
      rw [filter_mem_length_comm k1 k2 (List.nodup_dedup _) (List.nodup_dedup _),
          (dedup_append_perm k1 k2).length_eq]

theorem ratio_symm (m n : ℕ) :
    (if 0 < m ∧ 0 < n then (min (m : ℚ) (n : ℚ)) / (max (m : ℚ) (n : ℚ)) else 0) =
      (if 0 < n ∧ 0 < m then (min (n : ℚ) (m : ℚ)) / (max (n : ℚ) (m : ℚ)) else 0) := by
  rw [min_comm, max_comm]
  exact if_congr and_comm rfl rfl

theorem length_symm (text1 text2 : String) :
    DocumentMatcher.lengthSimilarity text1 text2 =
      DocumentMatcher.lengthSimilarity text2 text1 := by
  unfold DocumentMatcher.lengthSimilarity
  dsimp only
  by_cases hA : text1.length = 0 ∧ text2.length = 0
  · rw [if_pos hA, if_pos (And.symm hA)]
  · rw [if_neg hA, if_neg (fun hc => hA (And.symm hc))]
    by_cases hB : text1.length = 0 ∨ text2.length = 0
    · rw [if_pos hB, if_pos (Or.symm hB)]
    · rw [if_neg hB, if_neg (fun hc => hB (Or.symm hc))]
      rw [min_comm, max_comm]

theorem structural_symm (text1 text2 : String) :
    DocumentMatcher.structuralSimilarity text1 text2 =
      DocumentMatcher.structuralSimilarity text2 text1 := by
  unfold DocumentMatcher.structuralSimilarity
  dsimp only
  rw [ratio_symm (DocumentMatcher.paragraphsOf text2).length
        (DocumentMatcher.paragraphsOf text1).length,
      ratio_symm (DocumentMatcher.sentencesOf text2).length
        (DocumentMatcher.sentencesOf text1).length]

theorem calcSim_symm (text1 text2 : String) :
    DocumentMatcher.calculateSimilarity text1 text2 =
      DocumentMatcher.calculateSimilarity text2 text1 := by
  rw [calculateSimilarity_unfold, calculateSimilarity_unfold, jaccard_symm,
    cosine_symm, length_symm, structural_symm]

theorem title_eval_prayers :
    DocumentMatcher.calculateDocumentMatchByTitle "prayers-prayers.pdf" "oraciones.xml"
      = 4/3 := by
  simp only [DocumentMatcher.calculateDocumentMatchByTitle]
  rw [show jsSplitOnSpace (DocumentMatcher.extractTitle "prayers-prayers.pdf")
        = ["prayers", "prayers"] from by decide,
      show jsSplitOnSpace (DocumentMatcher.extractTitle "oraciones.xml")
        = ["oraciones"] from by decide,
      show DocumentMatcher.titleMatchScore ["prayers", "prayers"] ["oraciones"] = 2
        from by decide]
  norm_num

theorem title_eval_ab :
    DocumentMatcher.calculateDocumentMatchByTitle "a.pdf" "b.xml" = 0 := by
  simp only [DocumentMatcher.calculateDocumentMatchByTitle]
  rw [show jsSplitOnSpace (DocumentMatcher.extractTitle "a.pdf") = ["a"] from by decide,
      show jsSplitOnSpace (DocumentMatcher.extractTitle "b.xml") = ["b"] from by decide,
      show DocumentMatcher.titleMatchScore ["a"] ["b"] = 0 from by decide]
  norm_num

/-- Claim C3 as stated is false on the code: the combined document score
of two empty strings is 1/2, not 1 (the cosine and structural signals
contribute 0 there while the weights stay 1/4 each), which also refutes
the self-score clause at `a = ""`. -/
theorem c3_score_empty_counterexample :
    DocumentMatcher.calculateSimilarity "" "" ≠ 1 := by
  rw [calcSim_eval_empty_empty]
  norm_num

/-- Claim C3, amended: the document similarity score always lies in
`[0,1]` (the final clamp guarantees it), but the special values claimed
for empty inputs and for self-comparison do not hold: two empty strings
score 1/2, the pair `("", "x")` scores 1/4 rather than 0, and the
self-score of `"ab"` is 3/4 rather than 1. -/
theorem c3_score_bounds_amended :
    (∀ a b : String, 0 ≤ DocumentMatcher.calculateSimilarity a b ∧
      DocumentMatcher.calculateSimilarity a b ≤ 1) ∧
    DocumentMatcher.calculateSimilarity "" "" = 1/2 ∧
    DocumentMatcher.calculateSimilarity "" "x" = 1/4 ∧
    DocumentMatcher.calculateSimilarity "ab" "ab" = 3/4 :=
  ⟨fun a b => ⟨calcSim_nonneg a b, calcSim_le_one a b⟩,
   calcSim_eval_empty_empty, calcSim_eval_empty_x, calcSim_eval_ab_ab⟩

/-- Claim C8: the document similarity score is symmetric in its two
arguments.  Each of the four combined signals is individually symmetric:
Jaccard via the cardinalities of intersection and union, cosine via
permutation-invariance of the vocabulary sums, and the length and
structural ratios via commutativity of `min`/`max`. -/
theorem c8_score_symmetric (a b : String) :
    DocumentMatcher.calculateSimilarity a b = DocumentMatcher.calculateSimilarity b a :=
  calcSim_symm a b

theorem combinedScore_example :
    PipelineManager.combinedScore examplePdf exampleXml = 3/4 := by
  unfold PipelineManager.combinedScore
  rw [show examplePdf.text = "ab" from rfl, show exampleXml.text = "ab" from rfl,
      show examplePdf.filename = "a.pdf" from rfl,
      show exampleXml.filename = "b.xml" from rfl,
      calcSim_eval_ab_ab, title_eval_ab]
  norm_num

theorem bestCandidate_example :
    PipelineManager.bestCandidate examplePdf [exampleXml] = (some exampleXml, 3/4) := by
  unfold PipelineManager.bestCandidate
  simp only [List.foldl_cons, List.foldl_nil, combinedScore_example]
  norm_num

theorem confidenceOf_low_iff (s : ℝ) :
    PipelineManager.confidenceOf s = "low" ↔ s ≤ 3/10 := by
  unfold PipelineManager.confidenceOf
  split_ifs with h1 h2
  · exact iff_of_false (by decide) (by push_neg; linarith)
  · exact iff_of_false (by decide) (by push_neg; linarith)
  · exact iff_of_true rfl (by linarith [not_lt.mp h2])

theorem confidenceOf_34 : PipelineManager.confidenceOf (3/4 : ℝ) = "high" := by
  unfold PipelineManager.confidenceOf
  rw [if_pos (by norm_num : (3/4 : ℝ) > 3/5)]

theorem matchRecordsFor_example :
    PipelineManager.matchRecordsFor examplePdf [exampleXml] =
      [⟨1, 2, 3/4, "high", false⟩] := by
  unfold PipelineManager.matchRecordsFor
  rw [bestCandidate_example]
  dsimp only
  rw [if_pos (by norm_num : (3/4 : ℝ) > 1/10), confidenceOf_34]
  simp [examplePdf, exampleXml]

theorem bestCandidate_none_zero (pdf : PipelineManager.PdfDoc)
    (xmls : List PipelineManager.XmlDoc) :
    (PipelineManager.bestCandidate pdf xmls).1 = none →
      (PipelineManager.bestCandidate pdf xmls).2 = 0 := by
  unfold PipelineManager.bestCandidate
  suffices h : ∀ acc : Option PipelineManager.XmlDoc × ℝ,
      (acc.1 = none → acc.2 = 0) →
      ((xmls.foldl (fun acc xml =>
          if PipelineManager.combinedScore pdf xml > acc.2
          then (some xml, PipelineManager.combinedScore pdf xml) else acc) acc).1 = none →
        (xmls.foldl (fun acc xml =>
          if PipelineManager.combinedScore pdf xml > acc.2
          then (some xml, PipelineManager.combinedScore pdf xml) else acc) acc).2 = 0) by
    exact h (none, 0) (fun _ => rfl)
  induction xmls with
  | nil => intro acc hacc; exact hacc
  | cons x xs ih =>
    intro acc hacc
    simp only [List.foldl_cons]
    apply ih
    by_cases hx : PipelineManager.combinedScore pdf x > acc.2
    · rw [if_pos hx]; intro hc; exact absurd hc (by simp)
    · rw [if_neg hx]; exact hacc

theorem matchRecordsFor_below_floor (pdf : PipelineManager.PdfDoc)
    (xmls : List PipelineManager.XmlDoc)
    (h : (PipelineManager.bestCandidate pdf xmls).2 ≤ 1/10) :
    PipelineManager.matchRecordsFor pdf xmls = [] := by
  unfold PipelineManager.matchRecordsFor
  rcases hbc : PipelineManager.bestCandidate pdf xmls with ⟨bm, bs⟩
  cases bm with
  | none => rfl
  | some x =>
    dsimp only
    rw [if_neg]
    rw [hbc] at h
    push_neg
    exact h

theorem matchRecordsFor_above_floor (pdf : PipelineManager.PdfDoc)
    (xmls : List PipelineManager.XmlDoc)
    (h : 1/10 < (PipelineManager.bestCandidate pdf xmls).2) :
    ∃ x, (PipelineManager.bestCandidate pdf xmls).1 = some x ∧
      PipelineManager.matchRecordsFor pdf xmls =
        [⟨pdf.id, x.id, (PipelineManager.bestCandidate pdf xmls).2,
          PipelineManager.confidenceOf (PipelineManager.bestCandidate pdf xmls).2,
          if PipelineManager.confidenceOf (PipelineManager.bestCandidate pdf xmls).2 = "low"
          then true else false⟩] := by
  rcases hbc : PipelineManager.bestCandidate pdf xmls with ⟨bm, bs⟩
  rw [hbc] at h
  cases bm with
  | none =>
    exfalso
    have h0 := bestCandidate_none_zero pdf xmls
    rw [hbc] at h0
    have : bs = 0 := h0 rfl
    rw [this] at h
    norm_num at h
  | some x =>
    refine ⟨x, rfl, ?_⟩
    unfold PipelineManager.matchRecordsFor
    rw [hbc]
    dsimp only
    rw [if_pos (by simpa using h)]

theorem runDocumentMatching_eq_append (pdfs : List PipelineManager.PdfDoc)
    (xmls : List PipelineManager.XmlDoc) (s : List PipelineManager.DocumentMatchRec) :
    PipelineManager.runDocumentMatching pdfs xmls s =
      s ++ pdfs.flatMap (fun p => PipelineManager.matchRecordsFor p xmls) := by
  induction pdfs generalizing s with
  | nil => simp [PipelineManager.runDocumentMatching]
  | cons p ps ih =>
    simp only [PipelineManager.runDocumentMatching, List.foldl_cons, List.flatMap_cons]
    rw [show (ps.foldl (fun acc pdf => acc ++ PipelineManager.matchRecordsFor pdf xmls)
          (s ++ PipelineManager.matchRecordsFor p xmls)) =
        PipelineManager.runDocumentMatching ps xmls
          (s ++ PipelineManager.matchRecordsFor p xmls) from rfl, ih]
    simp [List.append_assoc]

theorem matchCountFor_append (a b : List PipelineManager.DocumentMatchRec) (i : ℕ) :
    matchCountFor (a ++ b) i = matchCountFor a i + matchCountFor b i := by
  simp [matchCountFor, List.filter_append]

theorem matchRecordsFor_pdf_id (pdf : PipelineManager.PdfDoc)
    (xmls : List PipelineManager.XmlDoc) :
    ∀ r ∈ PipelineManager.matchRecordsFor pdf xmls, r.pdf_id = pdf.id := by
  intro r hr
  unfold PipelineManager.matchRecordsFor at hr
  rcases hbc : PipelineManager.bestCandidate pdf xmls with ⟨bm, bs⟩
  rw [hbc] at hr
  cases bm with
  | none => simp at hr
  | some x =>
    dsimp only at hr
    by_cases hb : bs > 1/10
    · rw [if_pos hb] at hr
      simp at hr
      rw [hr]
    · rw [if_neg hb] at hr
      simp at hr

theorem matchCountFor_matchRecordsFor_le (pdf : PipelineManager.PdfDoc)
    (xmls : List PipelineManager.XmlDoc) (i : ℕ) :
    matchCountFor (PipelineManager.matchRecordsFor pdf xmls) i ≤ 1 := by
  unfold PipelineManager.matchRecordsFor
  rcases hbc : PipelineManager.bestCandidate pdf xmls with ⟨bm, bs⟩
  cases bm with
  | none => simp [matchCountFor]
  | some x =>
    dsimp only
    by_cases hb : bs > 1/10
    · rw [if_pos hb]
      simp only [matchCountFor]
      exact le_trans (List.length_filter_le _ _) (by simp)
    · rw [if_neg hb]
      simp [matchCountFor]

theorem matchCountFor_matchRecordsFor_ne (pdf : PipelineManager.PdfDoc)
    (xmls : List PipelineManager.XmlDoc) (i : ℕ) (h : pdf.id ≠ i) :
    matchCountFor (PipelineManager.matchRecordsFor pdf xmls) i = 0 := by
  simp only [matchCountFor, List.length_eq_zero, List.filter_eq_nil_iff]
  intro r hr
  have := matchRecordsFor_pdf_id pdf xmls r hr
  simp [this, h]

theorem matchCountFor_flatMap_zero (pdfs : List PipelineManager.PdfDoc)
    (xmls : List PipelineManager.XmlDoc) (i : ℕ) (h : ∀ p ∈ pdfs, p.id ≠ i) :
    matchCountFor (pdfs.flatMap (fun p => PipelineManager.matchRecordsFor p xmls)) i = 0 := by
  induction pdfs with
  | nil => simp [matchCountFor]
  | cons q qs ih =>
    rw [List.flatMap_cons, matchCountFor_append,
      matchCountFor_matchRecordsFor_ne q xmls i (h q (by simp)),
      ih (fun p hp => h p (by simp [hp]))]

theorem matchCountFor_flatMap_le (pdfs : List PipelineManager.PdfDoc)
    (xmls : List PipelineManager.XmlDoc) (i : ℕ)
    (h : List.Pairwise (fun p q => p.id ≠ q.id) pdfs) :
    matchCountFor (pdfs.flatMap (fun p => PipelineManager.matchRecordsFor p xmls)) i ≤ 1 := by
  induction pdfs with
  | nil => simp [matchCountFor]
  | cons q qs ih =>
    rw [List.flatMap_cons, matchCountFor_append]
    rcases List.pairwise_cons.mp h with ⟨hq, hqs⟩
    by_cases hqi : q.id = i
    · have hz : matchCountFor (qs.flatMap (fun p => PipelineManager.matchRecordsFor p xmls)) i = 0 :=
        matchCountFor_flatMap_zero qs xmls i (fun p hp => by
          have := hq p hp
          omega)
      rw [hz]
      simpa using matchCountFor_matchRecordsFor_le q xmls i
    · rw [matchCountFor_matchRecordsFor_ne q xmls i hqi]
      simpa using ih hqs

/-- Claim C4 counterexample: running document matching twice over the
same completed translation leaves two `document_matches` rows for
translation 1, because the insert path appends rows and nothing deletes
or deduplicates earlier matches — so the claimed at-most-one invariant is
violated at a reachable state. -/
theorem c4_counterexample :
    matchCountFor
      (PipelineManager.runDocumentMatching [examplePdf] [exampleXml]
        (PipelineManager.runDocumentMatching [examplePdf] [exampleXml] [])) 1 = 2 := by
  rw [runDocumentMatching_eq_append, runDocumentMatching_eq_append]
  simp only [List.flatMap_cons, List.flatMap_nil, matchRecordsFor_example, List.nil_append,
    List.append_nil]
  simp [matchCountFor]

/-- Claim C4, amended: a single run of document matching, started from a
state holding no match for the processed translations (with distinct
document ids), leaves at most one `document_matches` row per translation;
uniqueness is per-run only, since re-running appends further rows. -/
theorem c4_amended (pdfs : List PipelineManager.PdfDoc)
    (xmls : List PipelineManager.XmlDoc) (s : List PipelineManager.DocumentMatchRec)
    (hids : List.Pairwise (fun p q => p.id ≠ q.id) pdfs) :
    ∀ p ∈ pdfs, matchCountFor s p.id = 0 →
      matchCountFor (PipelineManager.runDocumentMatching pdfs xmls s) p.id ≤ 1 := by
  intro p hp hzero
  rw [runDocumentMatching_eq_append, matchCountFor_append, hzero]
  simpa using matchCountFor_flatMap_le pdfs xmls p.id hids

/-- Witness for the amended claim C4 at a concrete run. -/
theorem c4_amended_witness :
    List.Pairwise (fun p q : PipelineManager.PdfDoc => p.id ≠ q.id) [examplePdf] ∧
    examplePdf ∈ [examplePdf] ∧
    matchCountFor [] examplePdf.id = 0 ∧
    matchCountFor (PipelineManager.runDocumentMatching [examplePdf] [exampleXml] [])
      examplePdf.id ≤ 1 :=
  ⟨by simp, by simp, rfl,
   c4_amended [examplePdf] [exampleXml] [] (by simp) examplePdf (by simp) rfl⟩

/-- Claim C5: for every translation processed by document matching, if
the best combined score over the candidate references is at or below the
0.1 floor no match row is persisted, and if it exceeds the floor exactly
one row is persisted — carrying the best score and flagged
`manual_review` precisely when the score falls in the lowest confidence
band (at most 0.3). -/
theorem c5_floor_and_review (pdf : PipelineManager.PdfDoc)
    (xmls : List PipelineManager.XmlDoc) :
    ((PipelineManager.bestCandidate pdf xmls).2 ≤ 1/10 →
      PipelineManager.matchRecordsFor pdf xmls = []) ∧
    (1/10 < (PipelineManager.bestCandidate pdf xmls).2 →
      ∃ x r, (PipelineManager.bestCandidate pdf xmls).1 = some x ∧
        PipelineManager.matchRecordsFor pdf xmls = [r] ∧
        r.pdf_id = pdf.id ∧ r.xml_id = x.id ∧
        r.similarity_score = (PipelineManager.bestCandidate pdf xmls).2 ∧
        (r.manual_review = true ↔ (PipelineManager.bestCandidate pdf xmls).2 ≤ 3/10)) := by
  constructor
  · exact matchRecordsFor_below_floor pdf xmls
  · intro h
    obtain ⟨x, hx, hrec⟩ := matchRecordsFor_above_floor pdf xmls h
    refine ⟨x, _, hx, hrec, rfl, rfl, rfl, ?_⟩
    constructor
    · intro hrev
      by_cases hlow : PipelineManager.confidenceOf (PipelineManager.bestCandidate pdf xmls).2 = "low"
      · exact (confidenceOf_low_iff _).mp hlow
      · rw [if_neg hlow] at hrev
        exact absurd hrev (by simp)
    · intro hle
      rw [if_pos ((confidenceOf_low_iff _).mpr hle)]

/-- Witness for claim C5: the concrete pair scores 3/4 > 0.1, and the
persisted row is unreviewed because 3/4 is above the lowest band. -/
theorem c5_witness :
    1/10 < (PipelineManager.bestCandidate examplePdf [exampleXml]).2 ∧
    ∃ x r, (PipelineManager.bestCandidate examplePdf [exampleXml]).1 = some x ∧
      PipelineManager.matchRecordsFor examplePdf [exampleXml] = [r] ∧
      r.pdf_id = examplePdf.id ∧ r.xml_id = x.id ∧
      r.similarity_score = (PipelineManager.bestCandidate examplePdf [exampleXml]).2 ∧
      (r.manual_review = true ↔ (PipelineManager.bestCandidate examplePdf [exampleXml]).2 ≤ 3/10) := by
  have hpos : 1/10 < (PipelineManager.bestCandidate examplePdf [exampleXml]).2 := by
    rw [bestCandidate_example]; norm_num
  exact ⟨hpos, (c5_floor_and_review examplePdf [exampleXml]).2 hpos⟩

/-- Claim C6 counterexample: the title score is not bounded by 1 — for
filenames `prayers-prayers.pdf` vs `oraciones.xml` it is 4/3, so the
damped title signal is 16/15 and the final combined score exceeds 1,
outweighing any textual evidence (which is clamped to at most 1). -/
theorem c6_counterexample :
    1 < PipelineManager.combinedScore ⟨1, "prayers-prayers.pdf", ""⟩ ⟨2, "oraciones.xml", ""⟩ := by
  unfold PipelineManager.combinedScore
  rw [show (PipelineManager.PdfDoc.mk 1 "prayers-prayers.pdf" "").text = "" from rfl,
      show (PipelineManager.XmlDoc.mk 2 "oraciones.xml" "").text = "" from rfl,
      show (PipelineManager.PdfDoc.mk 1 "prayers-prayers.pdf" "").filename = "prayers-prayers.pdf" from rfl,
      show (PipelineManager.XmlDoc.mk 2 "oraciones.xml" "").filename = "oraciones.xml" from rfl,
      calcSim_eval_empty_empty, title_eval_prayers]
  rw [show ((4/3 : ℚ) : ℝ) * (4/5) = 16/15 by push_cast; norm_num]
  rw [max_eq_right (by norm_num : (1/2 : ℝ) ≤ 16/15)]
  norm_num

/-- Claim C6, amended: the final document-level score is
`max(textScore, titleScore * 0.8)` with damping factor 0.8 and the text
score never exceeds 1, but the boundedness clause survives only
conditionally: whenever the title score is at most 1.25 the final score
is at most 1 (and the counterexample shows larger title scores break
it). -/
theorem c6_amended (pdf : PipelineManager.PdfDoc) (xml : PipelineManager.XmlDoc) :
    PipelineManager.combinedScore pdf xml =
      max (DocumentMatcher.calculateSimilarity pdf.text xml.text)
        ((DocumentMatcher.calculateDocumentMatchByTitle pdf.filename xml.filename : ℝ)
          * (4/5)) ∧
    DocumentMatcher.calculateSimilarity pdf.text xml.text ≤ 1 ∧
    ((DocumentMatcher.calculateDocumentMatchByTitle pdf.filename xml.filename : ℝ) ≤ 5/4 →
      PipelineManager.combinedScore pdf xml ≤ 1) := by
  refine ⟨rfl, calcSim_le_one _ _, fun htitle => ?_⟩
  unfold PipelineManager.combinedScore
  apply max_le (calcSim_le_one _ _)
  nlinarith

/-- Witness for the amended claim C6 at a concrete pair with title score
0. -/
theorem c6_witness :
    (DocumentMatcher.calculateDocumentMatchByTitle examplePdf.filename exampleXml.filename : ℝ)
      ≤ 5/4 ∧
    PipelineManager.combinedScore examplePdf exampleXml ≤ 1 := by
  have ht : (DocumentMatcher.calculateDocumentMatchByTitle examplePdf.filename
      exampleXml.filename : ℝ) ≤ 5/4 := by
    rw [show examplePdf.filename = "a.pdf" from rfl, show exampleXml.filename = "b.xml" from rfl,
      title_eval_ab]
    norm_num
  exact ⟨ht, (c6_amended examplePdf exampleXml).2.2 ht⟩

theorem bestParagraphCandidate_calls (block : PipelineManager.TextBlock)
    (xmlElements : List PipelineManager.XmlElement) :
    (PipelineManager.bestParagraphCandidate block xmlElements).2 = xmlElements.length := by
  unfold PipelineManager.bestParagraphCandidate
  suffices h : ∀ acc : (Option PipelineManager.XmlElement × ℚ) × ℕ,
      (xmlElements.foldl (fun acc xmlElement =>
        let score := ParagraphMatcher.calculateSimilarity block.text_content
          xmlElement.text_content
        ((if score > acc.1.2 then (some xmlElement, score) else acc.1), acc.2 + 1)) acc).2 =
      acc.2 + xmlElements.length by
    simpa using h ((none, 0), 0)
  induction xmlElements with
  | nil => intro acc; simp
  | cons x xs ih =>
    intro acc
    simp only [List.foldl_cons, List.length_cons]
    rw [ih]
    omega

theorem runParagraphPass_calls (textBlocks : List PipelineManager.TextBlock)
    (xmlElements : List PipelineManager.XmlElement) :
    (PipelineManager.runParagraphPass textBlocks xmlElements).2 =
      textBlocks.length * xmlElements.length := by
  unfold PipelineManager.runParagraphPass
  suffices h : ∀ acc : List PipelineManager.ParagraphMatchRec × ℕ,
      (textBlocks.foldl (fun acc textBlock =>
        let bestAndCount := PipelineManager.bestParagraphCandidate textBlock xmlElements
        let newRecs :=
          match bestAndCount.1 with
          | (some bestMatch, bestScore) =>
            if bestScore > 2/5 then
              let confidence := PipelineManager.paragraphConfidenceOf bestScore
              [(⟨textBlock.id, bestMatch.id, bestScore, confidence,
                 if confidence = "low" then true else false⟩ :
                   PipelineManager.ParagraphMatchRec)]
            else []
          | (none, _) => []
        (acc.1 ++ newRecs, acc.2 + bestAndCount.2)) acc).2 =
      acc.2 + textBlocks.length * xmlElements.length by
    simpa using h ([], 0)
  induction textBlocks with
  | nil => intro acc; simp
  | cons b bs ih =>
    intro acc
    simp only [List.foldl_cons, List.length_cons]
    rw [ih, bestParagraphCandidate_calls]
    ring

theorem paragraphSim_left_empty (text2 : String) :
    ParagraphMatcher.calculateSimilarity "" text2 = 0 := by
  simp [ParagraphMatcher.calculateSimilarity]

/-- Claim C1 counterexample: pass 1 of the paragraph aligner is not
linear in the number of structural units.  Even when every fragment
scores 0 (below the 0.4 threshold) against every unit, no constant `C`
bounds the number of similarity-scoring calls by `C * N`: with one unit
and `C + 1` empty fragments the loop performs `C + 1` calls — there is no
cursor window and no quarantine in the code. -/
theorem c1_counterexample :
    ¬ ∃ C : ℕ, ∀ (textBlocks : List PipelineManager.TextBlock)
      (xmlElements : List PipelineManager.XmlElement),
      (∀ b ∈ textBlocks, ∀ el ∈ xmlElements,
        ParagraphMatcher.calculateSimilarity b.text_content el.text_content ≤ 2/5) →
      PipelineManager.pass1ScoringCalls textBlocks xmlElements ≤ C * xmlElements.length := by
  rintro ⟨C, h⟩
  have hbelow : ∀ b ∈ List.replicate (C + 1) (⟨0, ""⟩ : PipelineManager.TextBlock),
      ∀ el ∈ ([⟨0, "x"⟩] : List PipelineManager.XmlElement),
      ParagraphMatcher.calculateSimilarity b.text_content el.text_content ≤ 2/5 := by
    intro b hb el _
    have hb2 : b = ⟨0, ""⟩ := List.eq_of_mem_replicate hb
    rw [hb2]
    rw [show (⟨0, ""⟩ : PipelineManager.TextBlock).text_content = "" from rfl,
      paragraphSim_left_empty]
    norm_num
  have := h (List.replicate (C + 1) ⟨0, ""⟩) [⟨0, "x"⟩] hbelow
  rw [PipelineManager.pass1ScoringCalls, runParagraphPass_calls] at this
  simp at this

/-- Claim C1, amended: pass 1 of `runParagraphMatching` performs exactly
`fragments × units` similarity-scoring calls — every text block is scored
against every XML element of the matched reference, with no cursor
window, no quarantine, and no early exit. -/
theorem c1_calls_amended (textBlocks : List PipelineManager.TextBlock)
    (xmlElements : List PipelineManager.XmlElement) :
    PipelineManager.pass1ScoringCalls textBlocks xmlElements =
      textBlocks.length * xmlElements.length :=
  runParagraphPass_calls textBlocks xmlElements

/-- Claim C2 counterexample: writing "Esto es vital realmente" into
`<p>This is <span class="hl">important</span> text.</p>` does not
relocate the `span class="hl"` tag onto the first word "Esto".  The code
performs a simple replacement — the whole translation lands in the first
text node (before the span) and the span body is cleared — so the span
wraps the empty string, not "Esto". -/
theorem c2_counterexample :
    XmlProcessor.updateElementText exampleUnit exampleTranslation =
      XmlProcessor.Node.element "p" []
        [XmlProcessor.Node.text "Esto es vital realmente",
         XmlProcessor.Node.element "span" [("class", "hl")] [XmlProcessor.Node.text ""],
         XmlProcessor.Node.text ""] ∧
    XmlProcessor.getTextContent
        (XmlProcessor.Node.element "span" [("class", "hl")] [XmlProcessor.Node.text ""])
      ≠ "Esto" := by
  constructor
  · simp [exampleUnit, exampleTranslation, XmlProcessor.updateElementText,
      XmlProcessor.hasFormattingChildren, XmlProcessor.getTextNodes,
      XmlProcessor.getTextNodesList, XmlProcessor.setTextNodesList,
      XmlProcessor.setTextNodesNode, jsToLower]
  · simp [XmlProcessor.getTextContent, XmlProcessor.getTextContentList]

/-- Claim C2, amended: for the unit
`<p>This is <span class="hl">important</span> text.</p>` (which does have
inline-formatting children), writing the translated text puts the entire
translation into the first text node, clears every other text node, and
leaves all tag names and attributes byte-identical — the `span
class="hl"` stays in place but ends up wrapping the empty string. -/
theorem c2_amended :
    XmlProcessor.hasFormattingChildren exampleUnit = true ∧
    XmlProcessor.updateElementText exampleUnit exampleTranslation =
      XmlProcessor.Node.element "p" []
        [XmlProcessor.Node.text exampleTranslation,
         XmlProcessor.Node.element "span" [("class", "hl")] [XmlProcessor.Node.text ""],
         XmlProcessor.Node.text ""] := by
  constructor
  · decide
  · simp [exampleUnit, exampleTranslation, XmlProcessor.updateElementText,
      XmlProcessor.hasFormattingChildren, XmlProcessor.getTextNodes,
      XmlProcessor.getTextNodesList, XmlProcessor.setTextNodesList,
      XmlProcessor.setTextNodesNode, jsToLower]

/-- Claim C7 counterexample: a paragraph-matching job that fails because
the document pair is missing persists exactly the thrown error text
"Document pair not found" as its error message; the message does not
contain the identity of the pair being processed (the digit "7" does not
occur in it). -/
theorem c7_counterexample :
    (PipelineManager.runParagraphMatchingDb exampleNow exampleDbWithJob 1 7).2 =
      some "Document pair not found" ∧
    getTable (PipelineManager.runParagraphMatchingDb exampleNow exampleDbWithJob 1 7).1
        "pipeline_jobs" =
      some [[("id", JsVal.num 1),
             ("job_type", JsVal.str "paragraph_matching"),
             ("current_item", JsVal.str "Paragraph matching for pair 7"),
             ("created_at", JsVal.str exampleNow),
             ("status", JsVal.str "failed"),
             ("error_message", JsVal.str "Document pair not found"),
             ("updated_at", JsVal.str exampleNow)]] ∧
    strHasSub "7" "Document pair not found" = false :=
  ⟨rfl, rfl, rfl⟩

/-- Claim C7, amended: the persisted error message of a failed job is
only the thrown error text and need not name the item; the item identity
lives instead in the job row's `current_item` field, which `createJob`
fills with the description ("Paragraph matching for pair 7") at creation
and which survives the transition to `failed`. -/
theorem c7_amended :
    PipelineManager.createJob exampleNow exampleEmptyDb "paragraph_matching"
        "Paragraph matching for pair 7" = .ok (exampleDbWithJob, 1) ∧
    recGet exampleJobRecord "current_item" =
      some (JsVal.str "Paragraph matching for pair 7") ∧
    strHasSub "7" "Paragraph matching for pair 7" = true ∧
    (PipelineManager.runParagraphMatchingDb exampleNow exampleDbWithJob 1 7).2 =
      some "Document pair not found" ∧
    (getTable (PipelineManager.runParagraphMatchingDb exampleNow exampleDbWithJob 1 7).1
        "pipeline_jobs").map (fun rows => rows.map (fun r => recGet r "status")) =
      some [some (JsVal.str "failed")] ∧
    strHasSub "7" "Document pair not found" = false :=
  ⟨rfl, rfl, rfl, rfl, rfl, rfl⟩

/-- Claim C9, evaluated at the failing input: `rejectMatch` issues its
DELETE through a multi-line template literal, and the store's
end-anchored WHERE detector `/where (.+)$/i` cannot see a clause followed
by a newline, so the call always throws "DELETE without WHERE not
allowed" and removes nothing — even though the statement plainly carries
`WHERE id = ?`, and the same DELETE issued on a single line removes
exactly the records with the given id and touches no other table. -/
theorem c9_reject_throws :
    PipelineManager.rejectMatch exampleNow exampleDbWithParagraphMatches 5 =
      .error "DELETE without WHERE not allowed" ∧
    jsWhereToEndCapture PipelineManager.sqlRejectMatch = none ∧
    (∃ changes, handleDelete "DELETE FROM paragraph_matches WHERE id = ?" [JsVal.num 5]
        exampleDbWithParagraphMatches =
      .ok (⟨[("paragraph_matches",
              [[("id", JsVal.num 6), ("text_block_id", JsVal.num 12)]])], 7⟩, changes)) :=
  ⟨rfl, rfl, ⟨_, rfl⟩⟩

theorem lookup_mem_snd (l : List (String × String)) (k v : String)
    (h : l.lookup k = some v) : v ∈ l.map Prod.snd := by
  induction l with
  | nil => simp [List.lookup] at h
  | cons p t ih =>
    rcases p with ⟨a, b⟩
    by_cases hk : (k == a) = true
    · simp [List.lookup, hk] at h
      simp [h]
    · simp [List.lookup, hk] at h
      exact List.mem_cons_of_mem _ (ih h)

/-- Claim C10: language detection is total — for every block list it
returns a string; when the combined sample (first five blocks, truncated
to 1000 characters) is shorter than 10 characters it returns "unknown",
and otherwise it returns a human-readable name from the fixed
code-to-name map, or the raw detector code, with "unknown" as the
fallback for an empty (falsy) code. -/
theorem c10_detect_language (franc : String → String)
    (textBlocks : List PdfProcessor.TextBlockIn) :
    ((PdfProcessor.sampleTextOf textBlocks).length < 10 →
      PdfProcessor.detectLanguage franc textBlocks = "unknown") ∧
    (PdfProcessor.detectLanguage franc textBlocks = "unknown" ∨
      PdfProcessor.detectLanguage franc textBlocks ∈
        PdfProcessor.languageMap.map Prod.snd ∨
      PdfProcessor.detectLanguage franc textBlocks =
        franc (PdfProcessor.sampleTextOf textBlocks)) := by
  unfold PdfProcessor.detectLanguage
  by_cases h : (PdfProcessor.sampleTextOf textBlocks).length < 10
  · rw [if_pos h]
    exact ⟨fun _ => rfl, Or.inl rfl⟩
  · rw [if_neg h]
    refine ⟨fun hc => absurd hc h, ?_⟩
    dsimp only
    cases hl : List.lookup (franc (PdfProcessor.sampleTextOf textBlocks))
        PdfProcessor.languageMap with
    | none =>
      dsimp only
      by_cases hne : franc (PdfProcessor.sampleTextOf textBlocks) ≠ ""
      · rw [if_pos hne]
        exact Or.inr (Or.inr rfl)
      · rw [if_neg hne]
        exact Or.inl rfl
    | some name =>
      exact Or.inr (Or.inl (lookup_mem_snd _ _ _ hl))

/-- Witness for claim C10. -/
theorem c10_witness :
    (PdfProcessor.sampleTextOf ([] : List PdfProcessor.TextBlockIn)).length < 10 ∧
    PdfProcessor.detectLanguage (fun _ => "spa") [] = "unknown" :=
  ⟨by decide, (c10_detect_language (fun _ => "spa") []).1 (by decide)⟩
